import Mathlib

set_option maxRecDepth 100000

/-!
Shallow embedding of the SimpleFS sources (src/disk.c, src/fs.c).

Machine integers (`uint32_t`, `size_t`, `int`) are modelled as `Nat` (or `Int`
for signed return values); none of the claims exercise overflow.  A C `Block`
is a 4096-byte union read through one of three typed views (superblock, inode
array, pointer array); in every code path modelled here each block buffer is
filled and read through a single view, so the union is modelled as a structure
carrying the three views as independent fields.  Where an example disk must
reflect the union overlay (block 0 read through the inode view), the overlaid
field values are spelled out explicitly at the example.
-/

/-- BLOCK_SIZE from sfs headers: bytes per block. -/
def BLOCK_SIZE : Nat := 4096

/-- MAGIC_NUMBER from sfs headers: superblock identifier 0xf0f03410. -/
def MAGIC_NUMBER : Nat := 0xf0f03410

/-- INODES_PER_BLOCK from sfs headers. -/
def INODES_PER_BLOCK : Nat := 128

/-- POINTERS_PER_INODE from sfs headers. -/
def POINTERS_PER_INODE : Nat := 5

/-- POINTERS_PER_BLOCK from sfs headers. -/
def POINTERS_PER_BLOCK : Nat := 1024

/-- DISK_FAILURE from sfs headers: the error return of disk_read/disk_write. -/
def DISK_FAILURE : Int := -1

/-- SuperBlock struct: magic_number, blocks, inode_blocks, inodes (all u32). -/
structure SuperBlock where
  magic_number : Nat
  blocks : Nat
  inode_blocks : Nat
  inodes : Nat
deriving DecidableEq

/-- Inode struct: valid (u32, nonzero means valid), size in bytes, five direct
block pointers, one indirect block pointer.  A pointer value 0 means
"no block assigned". -/
structure Inode where
  valid : Nat
  size : Nat
  direct : List Nat
  indirect : Nat
deriving DecidableEq

/-- Block union of fs.h, modelled as the three typed views side by side
(see the file header note).  `inodes` has INODES_PER_BLOCK entries and
`pointers` has POINTERS_PER_BLOCK entries in well-formed blocks. -/
structure Block where
  super : SuperBlock
  inodes : List Inode
  pointers : List Nat
deriving DecidableEq

/-- An all-zero inode, as produced by fs_format's cleared inode table. -/
def zeroInode : Inode :=
  { valid := 0, size := 0, direct := List.replicate POINTERS_PER_INODE 0, indirect := 0 }

/-- A block of all-zero bytes under every view.  Also used to model an
uninitialized stack `Block` where the C code reads indeterminate memory
(fs_create after a failed disk_read): C leaves such bytes unspecified and the
model fixes one allowed value. -/
def junkBlock : Block :=
  { super := { magic_number := 0, blocks := 0, inode_blocks := 0, inodes := 0 },
    inodes := List.replicate INODES_PER_BLOCK zeroInode,
    pointers := List.replicate POINTERS_PER_BLOCK 0 }

/-- Disk struct of disk.h: file descriptor, block count, and the device
contents (the backing image, one Block per index).  The cumulative read/write
counters of the C struct are never incremented in the source and are elided. -/
structure Disk where
  fd : Int
  blocks : Nat
  content : Nat → Block

/-- disk_sanity_check from disk.c: a NULL handle (`none`) or negative file
descriptor, an out-of-range block index, or a NULL data buffer is unsafe.
`dataIsNull` models whether the caller's buffer pointer is NULL. -/
def disk_sanity_check (disk : Option Disk) (blocknum : Nat) (dataIsNull : Bool) : Bool :=
  match disk with
  | none => false
  | some d =>
    if d.fd < 0 then false
    else if blocknum ≥ d.blocks then false
    else if dataIsNull then false
    else true

/-- disk_read from disk.c.  Returns (return value, bytes read into the
caller's buffer, whether any device I/O was performed).  When the sanity
check fails the function returns DISK_FAILURE before any lseek/read syscall;
on the success path the underlying image read yields BLOCK_SIZE bytes. -/
def disk_read (disk : Option Disk) (blocknum : Nat) (dataIsNull : Bool) :
    Int × Option Block × Bool :=
  if disk_sanity_check disk blocknum dataIsNull = false then (DISK_FAILURE, none, false)
  else
    match disk with
    | none => (DISK_FAILURE, none, false)
    | some d => ((BLOCK_SIZE : Int), some (d.content blocknum), true)

/-- disk_write from disk.c.  `data = none` models a NULL buffer pointer.
Returns (return value, device state after the call, whether any device I/O
was performed); on failure the device contents are untouched. -/
def disk_write (disk : Option Disk) (blocknum : Nat) (data : Option Block) :
    Int × Option Disk × Bool :=
  if disk_sanity_check disk blocknum data.isNone = false then (DISK_FAILURE, disk, false)
  else
    match disk, data with
    | some d, some b =>
      ((BLOCK_SIZE : Int),
       some { d with content := fun i => if i = blocknum then b else d.content i },
       true)
    | _, _ => (DISK_FAILURE, disk, false)

/-- C9: disk_read and disk_write return DISK_FAILURE without performing any
device I/O whenever the handle is null or has a negative file descriptor, the
block index is at least the device's block count, or the buffer is null. -/
theorem C9_disk_rejects_invalid (disk : Option Disk) (blocknum : Nat)
    (dataIsNull : Bool) (wdata : Option Block)
    (h : disk = none
        ∨ (∃ d, disk = some d ∧ (d.fd < 0 ∨ d.blocks ≤ blocknum))
        ∨ (dataIsNull = true ∧ wdata = none)) :
    disk_read disk blocknum dataIsNull = (DISK_FAILURE, none, false)
    ∧ disk_write disk blocknum wdata = (DISK_FAILURE, disk, false) := by
  have hs : disk_sanity_check disk blocknum dataIsNull = false
      ∧ disk_sanity_check disk blocknum wdata.isNone = false := by
    rcases h with h | ⟨d, hd, hfd | hblk⟩ | ⟨h1, h2⟩
    · subst h; exact ⟨rfl, rfl⟩
    · subst hd
      constructor <;> simp [disk_sanity_check, hfd]
    · subst hd
      constructor <;> simp [disk_sanity_check, Nat.not_lt.mpr hblk]
    · subst h1; subst h2
      rcases disk with _ | d
      · exact ⟨rfl, rfl⟩
      · constructor <;> simp [disk_sanity_check]
  refine ⟨?_, ?_⟩
  · rw [disk_read.eq_def, if_pos hs.1]
  · rw [disk_write.eq_def, if_pos hs.2]

/-- Witness for C9 at a concrete invalid input: the NULL handle. -/
theorem C9_disk_rejects_invalid_witness :
    disk_read none 0 true = (DISK_FAILURE, none, false)
    ∧ disk_write none 0 none = (DISK_FAILURE, none, false) :=
  C9_disk_rejects_invalid none 0 true none (Or.inl rfl)

/-- An `Inode *` pointer value: NULL, or a pointer to a heap cell holding an
inode (as produced by the malloc+memcpy in fs_load_inode).  C passes pointers
by value, so a callee's assignment to its pointer parameter is invisible to
the caller. -/
inductive PtrI where
  | null : PtrI
  | alloc : Inode → PtrI
deriving DecidableEq

/-- FileSystem struct of fs.h: mounted disk, cached superblock, and the
free-block array allocated by fs_initialize_free_block_bitmap (a C `bool`
array; true = referenced by some inode, false = free). -/
structure FileSystem where
  disk : Disk
  meta_data : SuperBlock
  free_blocks : List Bool

/-- fs_load_inode from fs.c.  Returns (return value, the callee's local
`node` parameter after the body ran, the list of device block indices
accessed).  Note the source computes `blk_number = inode_number /
INODES_PER_BLOCK` with no `+ 1`, and has no `inode_number < inodes` bound
check; `offset` is written as the source's subtraction.  On success the body
assigns a fresh malloc'd pointer to its local `node`; the source's
`assert(node == NULL)` is a debug aid and is not modelled as an abort. -/
def fs_load_inode (fs : FileSystem) (inode_number : Nat) (node : PtrI) :
    Bool × PtrI × List Nat :=
  let blk_number := inode_number / INODES_PER_BLOCK
  let offset := inode_number - INODES_PER_BLOCK * blk_number
  let rd := disk_read (some fs.disk) blk_number false
  if rd.1 = DISK_FAILURE then (false, node, [])
  else
    let blk := rd.2.1.getD junkBlock
    let ino := blk.inodes.getD offset zeroInode
    if ino.valid = 0 then (false, node, [blk_number])
    else (true, PtrI.alloc ino, [blk_number])

/-- The C call `fs_load_inode(fs, inode_number, node)` as the caller observes
it: the pointer argument is passed by value, so the call returns the callee's
return value while the caller's own `node` variable keeps the value it had
before the call.  All three call sites (fs_remove, fs_stat, fs_read) pass a
NULL or uninitialized local pointer and read it afterwards. -/
def fs_load_inode_call (fs : FileSystem) (inode_number : Nat) (node : PtrI) :
    Bool × PtrI :=
  ((fs_load_inode fs inode_number node).1, node)

/-- fs_save_inode from fs.c: read-modify-write of the containing block.
Takes the pointed-to inode value (the source's `node` is asserted non-NULL
and dereferenced).  Returns (return value, device state after the call, list
of device block indices accessed).  As in fs_load_inode, `blk_number` lacks
the `+ 1` of the documented layout. -/
def fs_save_inode (fs : FileSystem) (inode_number : Nat) (node : Inode) :
    Bool × Disk × List Nat :=
  let blk_number := inode_number / INODES_PER_BLOCK
  let offset := inode_number - INODES_PER_BLOCK * blk_number
  let rd := disk_read (some fs.disk) blk_number false
  if rd.1 = DISK_FAILURE then (false, fs.disk, [])
  else
    let blk := rd.2.1.getD junkBlock
    let blk1 := { blk with inodes := blk.inodes.set offset node }
    let wr := disk_write (some fs.disk) blk_number (some blk1)
    if wr.1 = DISK_FAILURE then (false, fs.disk, [blk_number])
    else (true, wr.2.1.getD fs.disk, [blk_number, blk_number])

/-- Inner scan of fs_create: index of the first slot with `valid == false`
(the source compares the u32 `valid` against false, i.e. zero). -/
def findFreeSlot : List Inode → Nat → Option Nat
  | [], _ => none
  | ino :: rest, j => if ino.valid = 0 then some j else findFreeSlot rest (j + 1)

/-- Outer loop of fs_create over the inode-table block indices
`i = 1 .. inode_blocks`.  The source tests `disk_read(...) != DISK_FAILURE`
and returns -1 inside that branch, i.e. a SUCCESSFUL read aborts the scan;
only after a FAILED read does it scan the (uninitialized, modelled as
`junkBlock`) stack buffer.  Returns (return value, device state). -/
def fs_create_scan (fs : FileSystem) : List Nat → Int × Disk
  | [] => (-1, fs.disk)
  | i :: rest =>
    let rd := disk_read (some fs.disk) i false
    if rd.1 ≠ DISK_FAILURE then (-1, fs.disk)
    else
      let blk := rd.2.1.getD junkBlock
      match findFreeSlot blk.inodes 0 with
      | none => fs_create_scan fs rest
      | some j =>
        let blk1 := { blk with
          inodes := blk.inodes.set j { (blk.inodes.getD j zeroInode) with valid := 1 } }
        let ino := (i - 1) * INODES_PER_BLOCK + j
        let wr := disk_write (some fs.disk) i (some blk1)
        if wr.1 = DISK_FAILURE then (-1, fs.disk)
        else ((ino : Int), wr.2.1.getD fs.disk)

/-- fs_create from fs.c.  Note the inverted disk_read check (see
fs_create_scan) and that the found slot only has `valid` set to 1: `size`,
`direct` and `indirect` keep whatever the block held. -/
def fs_create (fs : FileSystem) : Int × Disk :=
  fs_create_scan fs (List.range' 1 fs.meta_data.inode_blocks)

/-- Direct-pointer pass of fs_initialize_free_block_bitmap: for each of the
five direct pointers, a non-zero pointer `num` marks index
`num - 1 - inode_blocks` (data-region-relative) true.  The source computes
the index in C integer arithmetic; `Nat` subtraction agrees whenever
`num > inode_blocks`, which holds at every input exercised here. -/
def bitmap_mark_inode (inode_blocks : Nat) (ino : Inode) (fb : List Bool) : List Bool :=
  (List.range POINTERS_PER_INODE).foldl
    (fun fb ptr =>
      let num := ino.direct.getD ptr 0
      if num ≠ 0 then fb.set (num - 1 - inode_blocks) true else fb)
    fb

/-- Per-block pass of fs_initialize_free_block_bitmap: skip invalid inodes,
mark the direct pointers of valid ones.  The source has NO handling of
indirect blocks here. -/
def bitmap_mark_block (inode_blocks : Nat) (blk : Block) (fb : List Bool) : List Bool :=
  blk.inodes.foldl
    (fun fb ino => if ino.valid = 0 then fb else bitmap_mark_inode inode_blocks ino fb)
    fb

/-- Loop of fs_initialize_free_block_bitmap over inode-table blocks
`1 .. inode_blocks`; a failed read returns early without assigning
`fs->free_blocks` (modelled as `none`). -/
def fs_initialize_scan (fs : FileSystem) : List Nat → List Bool → Option (List Bool)
  | [], fb => some fb
  | i :: rest, fb =>
    let rd := disk_read (some fs.disk) i false
    if rd.1 = DISK_FAILURE then none
    else
      fs_initialize_scan fs rest
        (bitmap_mark_block fs.meta_data.inode_blocks (rd.2.1.getD junkBlock) fb)

/-- fs_initialize_free_block_bitmap from fs.c.  Allocates
`blocks - inode_blocks` bool entries, all initially false, then marks the
direct pointers of every valid inode (and nothing else: no reserved bits for
block 0 or the inode table, no indirect handling). -/
def fs_initialize_free_block_bitmap (fs : FileSystem) : FileSystem :=
  let data_blocks := fs.meta_data.blocks - fs.meta_data.inode_blocks
  match fs_initialize_scan fs (List.range' 1 fs.meta_data.inode_blocks)
      (List.replicate data_blocks false) with
  | none => fs
  | some fb => { fs with free_blocks := fb }

/-- fs_mount from fs.c: read block 0, check the magic, copy the superblock
into the handle, build the bitmap — and then `return false` even on this
fully successful path. -/
def fs_mount (fs : FileSystem) (disk : Disk) : Bool × FileSystem :=
  let rd := disk_read (some disk) 0 false
  if rd.1 = DISK_FAILURE then (false, fs)
  else
    let blk := rd.2.1.getD junkBlock
    if blk.super.magic_number ≠ MAGIC_NUMBER then (false, fs)
    else
      let fs1 := { fs with disk := disk, meta_data := blk.super }
      (false, fs_initialize_free_block_bitmap fs1)

/-- Inode-table loop of fs_format, writing the cleared inode block to
`i = 1 .. inode_blocks`; a failed write returns false early, and falling off
the loop reaches the source's final `return false` as well. -/
def fs_format_loop (disk : Disk) (blk : Block) : List Nat → Bool × Disk
  | [] => (false, disk)
  | i :: rest =>
    let wr := disk_write (some disk) i (some blk)
    if wr.1 = DISK_FAILURE then (false, disk)
    else fs_format_loop (wr.2.1.getD disk) blk rest

/-- fs_format from fs.c.  `inode_blocks = ceil(blocks * 0.1)`: the source
computes this in double arithmetic; the model computes the exact ceiling of
blocks/10, which the double computation matches at the magnitudes used here.
The superblock is written to block 0, then the same stack buffer has all 128
inode slots zeroed and is written to blocks 1..inode_blocks.  Every exit,
including the fully successful one, returns false. -/
def fs_format (disk : Disk) : Bool × Disk :=
  let inodes := (disk.blocks + 9) / 10
  let sp : SuperBlock :=
    { magic_number := MAGIC_NUMBER, blocks := disk.blocks,
      inode_blocks := inodes, inodes := inodes * INODES_PER_BLOCK }
  let blk0 : Block := { junkBlock with super := sp }
  let wr := disk_write (some disk) 0 (some blk0)
  if wr.1 = DISK_FAILURE then (false, disk)
  else
    let blkI : Block := { blk0 with inodes := List.replicate INODES_PER_BLOCK zeroInode }
    fs_format_loop (wr.2.1.getD disk) blkI (List.range' 1 inodes)

/-- fs_remove from fs.c.  The local `Inode *in` is initialized to NULL and
passed by value to fs_load_inode, which never writes through it (see
fs_load_inode_call), so when the load reports success the subsequent
`in->direct[i]` dereferences NULL: modelled as `none` (undefined behavior).
The remainder of the body is translated for fidelity even though the
pointer cannot be non-NULL at that point. -/
def fs_remove (fs : FileSystem) (inode_number : Nat) : Option (Bool × FileSystem) :=
  let p : PtrI := PtrI.null
  let res := (fs_load_inode_call fs inode_number p).1
  if res = false then some (false, fs)
  else
    match (fs_load_inode_call fs inode_number p).2 with
    | PtrI.null => none
    | PtrI.alloc ino0 =>
      let step := fun (st : Inode × FileSystem) (i : Nat) =>
        let num := st.1.direct.getD i 0
        if num = 0 then st
        else ({ st.1 with direct := st.1.direct.set i 0 },
              { st.2 with free_blocks := st.2.free_blocks.set num false })
      let st1 := (List.range POINTERS_PER_INODE).foldl step (ino0, fs)
      let ino1 := st1.1
      let fs1 := st1.2
      if ino1.size > BLOCK_SIZE * POINTERS_PER_INODE then
        if ino1.indirect = 0 then none
        else
          let rd := disk_read (some fs1.disk) ino1.indirect false
          if rd.1 = DISK_FAILURE then some (false, fs1)
          else
            let fs2 := (rd.2.1.getD junkBlock).pointers.foldl
              (fun g num =>
                if num = 0 then g
                else { g with free_blocks := g.free_blocks.set num false })
              fs1
            let ino2 := { ino1 with valid := 0, indirect := 0 }
            let sv := fs_save_inode fs2 inode_number ino2
            some (sv.1, { fs2 with disk := sv.2.1 })
      else
        let ino2 := { ino1 with valid := 0, indirect := 0 }
        let sv := fs_save_inode fs1 inode_number ino2
        some (sv.1, { fs1 with disk := sv.2.1 })

/-- fs_stat from fs.c.  The source declares `bool res` and later `int res`
(a C redeclaration error, modelled as two bindings), and its local
`Inode *in` is uninitialized; as with fs_remove the load never writes
through the pointer, so `in->size` on the success path dereferences an
invalid pointer: `none`. -/
def fs_stat (fs : FileSystem) (inode_number : Nat) : Option Int :=
  let p : PtrI := PtrI.null
  let res := (fs_load_inode_call fs inode_number p).1
  if res = false then some (-1)
  else
    match (fs_load_inode_call fs inode_number p).2 with
    | PtrI.null => none
    | PtrI.alloc ino => some (ino.size : Int)

/-- fs_read from fs.c.  After the load, the direct-pointer loop in the
source is syntactically incomplete (`if (i)` with no statement) and copies
nothing into the buffer; the function then returns -1 on every path. -/
def fs_read (fs : FileSystem) (inode_number : Nat) (length offset : Nat) : Int :=
  let res := (fs_load_inode_call fs inode_number PtrI.null).1
  if res = false then -1
  else -1

/-- fs_write from fs.c: the body is the single statement `return -1`. -/
def fs_write (fs : FileSystem) (inode_number : Nat) (data : List Nat)
    (length offset : Nat) : Int :=
  -1

/-- Superblock of the 20-block example image: `inode_blocks = ceil(20 * 0.1)
= 2`, `inodes = 2 * 128 = 256`, as fs_format produces. -/
def superEx : SuperBlock :=
  { magic_number := MAGIC_NUMBER, blocks := 20, inode_blocks := 2, inodes := 256 }

/-- Block 0 of the example image.  Its inode view spells out the union
overlay of the 16 superblock bytes on slot 0: `valid` is the magic (nonzero,
so the slot passes fs_load_inode's validity test), `size` is the block
count, the first two direct entries are inode_blocks and inodes, and the
padding bytes are zero. -/
def blk0ex : Block :=
  { super := superEx,
    inodes := (List.replicate INODES_PER_BLOCK zeroInode).set 0
      { valid := MAGIC_NUMBER, size := 20, direct := [2, 256, 0, 0, 0], indirect := 0 },
    pointers := List.replicate POINTERS_PER_BLOCK 0 }

/-- Example inode 0: valid, one byte past the direct capacity
(5 * 4096 + 1 = 20481 bytes), all five direct pointers in use and an
indirect block at block 8. -/
def ino0ex : Inode :=
  { valid := 1, size := 20481, direct := [3, 4, 5, 6, 7], indirect := 8 }

/-- Example inode 128 (slot 0 of inode-table block 2): valid, 5 bytes, one
direct block at block 9. -/
def ino128ex : Inode :=
  { valid := 1, size := 5, direct := [9, 0, 0, 0, 0], indirect := 0 }

/-- Inode-table block 1 of the example image (inodes 0..127). -/
def blk1ex : Block :=
  { junkBlock with inodes := (List.replicate INODES_PER_BLOCK zeroInode).set 0 ino0ex }

/-- Inode-table block 2 of the example image (inodes 128..255). -/
def blk2ex : Block :=
  { junkBlock with inodes := (List.replicate INODES_PER_BLOCK zeroInode).set 0 ino128ex }

/-- Block 8 of the example image: inode 0's indirect block, whose first
entry points at data block 10. -/
def blk8ex : Block :=
  { junkBlock with pointers := (List.replicate POINTERS_PER_BLOCK 0).set 0 10 }

/-- The example 20-block device: formatted superblock at block 0, inode
table at blocks 1..2, inode 0 owning data blocks 3..7 plus indirect block 8
with entry 10, inode 128 owning data block 9. -/
def exDisk : Disk :=
  { fd := 3, blocks := 20,
    content := fun b =>
      if b = 0 then blk0ex
      else if b = 1 then blk1ex
      else if b = 2 then blk2ex
      else if b = 8 then blk8ex
      else junkBlock }

/-- A FileSystem struct before fs_mount assigns its fields (the C caller
passes an uninitialized struct; the model fixes zero-like contents). -/
def initFS (d : Disk) : FileSystem :=
  { disk := d, meta_data := junkBlock.super, free_blocks := [] }

/-- The example filesystem: the state of the handle after fs_mount on the
example device (superblock cached, bitmap built by
fs_initialize_free_block_bitmap). -/
def exFS : FileSystem := (fs_mount (initFS exDisk) exDisk).2

/-- A blank 20-block device with a working descriptor, as disk_open yields
before any formatting. -/
def d20 : Disk := { fd := 3, blocks := 20, content := fun _ => junkBlock }

/-- Case split on fs_load_inode: either it fails and hands back the caller's
pointer argument unchanged, or it succeeds and its local pointer ends up as a
fresh allocation holding the loaded inode. -/
theorem fs_load_inode_cases (fs : FileSystem) (n : Nat) (node : PtrI) :
    ((fs_load_inode fs n node).1 = false ∧ (fs_load_inode fs n node).2.1 = node)
    ∨ ∃ ino, (fs_load_inode fs n node).1 = true
        ∧ (fs_load_inode fs n node).2.1 = PtrI.alloc ino := by
  simp only [fs_load_inode]
  split_ifs with h1 h2
  · exact Or.inl ⟨rfl, rfl⟩
  · exact Or.inl ⟨rfl, rfl⟩
  · exact Or.inr ⟨_, rfl, rfl⟩

/-- C1: refuted on the code.  On the mounted example filesystem,
`write(0, "hello", 5, 0)` returns -1 — fs_write's whole body is
`return -1` — not 5, so the write/read round-trip of the claim cannot even
start. -/
theorem C1_write_stub_breaks_roundtrip :
    fs_write exFS 0 [104, 101, 108, 108, 111] 5 0 = -1 ∧ (-1 : Int) ≠ 5 := by
  decide

/-- C2: refuted on the code at n = 0.  fs_load_inode and fs_save_inode
compute the containing block as `n / INODES_PER_BLOCK` with no `1 +`, so for
inode 0 both access device block 0 — the superblock — where the claim says
they access block 1 and never block 0. -/
theorem C2_inode_addressing_hits_superblock :
    (fs_load_inode exFS 0 PtrI.null).2.2 = [0]
    ∧ (fs_save_inode exFS 0 zeroInode).2.2 = [0, 0]
    ∧ 1 + 0 / INODES_PER_BLOCK ≠ 0 := by
  decide

/-- C3: refuted on the code.  fs_load_inode never writes through the
caller's pointer, so once the load of (valid) inode 0 reports success,
fs_remove dereferences its still-NULL local `in` (`in->direct[i]`):
undefined behavior (`none`), never the successful removal the claim
describes; fs_stat crashes the same way instead of reporting a size or
NotFound. -/
theorem C3_remove_dereferences_null :
    fs_remove exFS 0 = none ∧ fs_stat exFS 0 = none := by
  exact ⟨rfl, rfl⟩

/-- C4: refuted on the code.  The example filesystem has plenty of free
slots (inode 1 is invalid), yet fs_create returns -1 on its first iteration:
the source treats a SUCCESSFUL disk_read (`!= DISK_FAILURE`) as the error
case and aborts the scan. -/
theorem C4_create_inverted_read_test :
    (fs_create exFS).1 = -1
    ∧ ((exDisk.content 1).inodes.getD 1 zeroInode).valid = 0 := by
  decide

/-- C5: refuted on the code.  After mounting the example image the bitmap
has `blocks - inode_blocks = 18` entries, not one per block in [0, 20), so
block 0 and the inode blocks have no reserved bits; inode 0 is valid with
size 20481 > 5 * 4096 and indirect block 8 holding entry 10, yet the bits
for blocks 8 and 10 (data-region indices 5 and 7) stay free — the
initializer never looks at indirect blocks — while direct pointer 3 (index
0) is marked. -/
theorem C5_bitmap_skips_indirect_blocks :
    exFS.free_blocks.length = 18
    ∧ exFS.meta_data.blocks = 20
    ∧ exFS.free_blocks.getD 0 false = true
    ∧ exFS.free_blocks.getD 5 false = false
    ∧ exFS.free_blocks.getD 7 false = false
    ∧ ((exDisk.content 1).inodes.getD 0 zeroInode).size > BLOCK_SIZE * POINTERS_PER_INODE
    ∧ ((exDisk.content 1).inodes.getD 0 zeroInode).indirect = 8
    ∧ (exDisk.content 8).pointers.getD 0 0 = 10 := by
  decide

/-- C6: refuted on the code.  Inode 0 is valid and the offset is far past
its size, so the claim requires read to return 0; fs_read (whose copy loop
is syntactically incomplete in the source) returns -1. -/
theorem C6_read_returns_error_not_zero :
    fs_read exFS 0 1 999999 = -1 ∧ (-1 : Int) ≠ 0 := by
  decide

/-- C7: refuted on the code.  Formatting a 20-block device succeeds — the
superblock lands on block 0 and both inode-table blocks are zeroed — and
mounting the result succeeds — the magic matches, the superblock is cached
and an 18-entry bitmap is built — yet both fs_format and fs_mount return
false. -/
theorem C7_format_mount_return_false_on_success :
    (fs_format d20).1 = false
    ∧ ((fs_format d20).2.content 0).super = superEx
    ∧ ((fs_format d20).2.content 1).inodes = List.replicate INODES_PER_BLOCK zeroInode
    ∧ ((fs_format d20).2.content 2).inodes = List.replicate INODES_PER_BLOCK zeroInode
    ∧ (fs_mount (initFS d20) (fs_format d20).2).1 = false
    ∧ (fs_mount (initFS d20) (fs_format d20).2).2.meta_data = superEx
    ∧ (fs_mount (initFS d20) (fs_format d20).2).2.free_blocks.length = 18 := by
  decide

/-- C8: refuted on the code.  The example superblock has 256 inodes;
fs_load_inode has no bound check, so for n = 256 it still reads a device
block (block 2, because of the missing `1 +`) and even reports success by
returning inode 128's slot, instead of signalling NotFound without any disk
access. -/
theorem C8_load_inode_missing_bound_check :
    exFS.meta_data.inodes = 256
    ∧ (fs_load_inode exFS 256 PtrI.null).2.2 = [2]
    ∧ (fs_load_inode exFS 256 PtrI.null).1 = true := by
  decide

/-- C10: confirmed.  A call to fs_load_inode passes the pointer by value, so
the caller's `node` variable (NULL at all three call sites: fs_remove,
fs_stat, fs_read) has the same value after the call as before it; even when
the call returns true, the loaded inode sits only in the callee's discarded
local pointer, which at that point is a non-NULL allocation the caller never
observes. -/
theorem C10_caller_pointer_unchanged (fs : FileSystem) (n : Nat) :
    (fs_load_inode_call fs n PtrI.null).2 = PtrI.null
    ∧ ((fs_load_inode fs n PtrI.null).1 = true →
        (fs_load_inode fs n PtrI.null).2.1 ≠ PtrI.null) := by
  refine ⟨rfl, fun h => ?_⟩
  rcases fs_load_inode_cases fs n PtrI.null with ⟨h1, _⟩ | ⟨ino, _, h2⟩
  · rw [h] at h1
    exact Bool.noConfusion h1
  · rw [h2]
    intro hc
    exact PtrI.noConfusion hc

/-- Witness for C10 at the example filesystem and inode 0, where the load
does return true. -/
theorem C10_caller_pointer_unchanged_witness :
    (fs_load_inode_call exFS 0 PtrI.null).2 = PtrI.null
    ∧ (fs_load_inode exFS 0 PtrI.null).2.1 ≠ PtrI.null
    ∧ (fs_load_inode exFS 0 PtrI.null).1 = true := by
  have h := C10_caller_pointer_unchanged exFS 0
  exact ⟨h.1, h.2 (by decide), by decide⟩
